import Mathlib

/-!
Verification of the payment transfer service of the Personal Cosmetic
Assistant repository (`payment/src/main/java/com/example/payment`).

The embedding translates, from the Java source and the SQL schema:
* `TransactionService.validateRequest`, `parseIdentifier`,
  `parseAccountIdentifier`, `toDto`, `findById`, `createTransaction`;
* `TransactionController.createTransaction` (HTTP status mapping);
* the `"Transaction"` / `"Account"` tables with their check and foreign-key
  constraints (schema file: `CREATE TABLE "Transaction" ... ck_amount_positive,
  ck_accounts_distinct, fk_tx_from_account, fk_tx_to_account`).

Modelling conventions:
* Java nullable `String` / `BigDecimal` fields become `Option String` /
  `Option ℚ`.  `BigDecimal` amounts are exact decimal values and the service
  only ever compares them with zero, so they are embedded as rationals.
* Exceptions become an explicit `PaymentError` value: `IllegalArgumentException`
  is `invalidArg`, `NoSuchElementException` is `notFound`, and every other
  runtime failure (`IllegalStateException`, database constraint violations)
  is `serverError`, which the Spring controller does not catch and which
  therefore surfaces as an HTTP 500.
* `@Transactional` rollback is the explicit state-passing wrapper
  `createTransactionRun`: on any error the store is returned unchanged.
* The generated `SERIAL` primary key is the store's `nextId` counter.
* `created_at` is `insertable = false` on the JPA entity, so inside the
  service's persistence context the freshly saved entity still has a null
  `createdAt`; the model therefore inserts rows with `createdAt = none`.
-/

namespace Payment

/-- Java `Character.isWhitespace` for the code points Java treats as whitespace:
`\t \n \v \f \r` (9–13), `\u001C`–`\u001F` and space (28–32), plus the Unicode
space separators that are not non-breaking (` `, ` `–` ` except
` `, ` `, ` `, ` `, `　`). -/
def isJavaWhitespace (c : Char) : Bool :=
  let v := c.toNat
  (9 ≤ v && v ≤ 13) || (28 ≤ v && v ≤ 32) || v = 0x1680 ||
    (0x2000 ≤ v && v ≤ 0x200A && v ≠ 0x2007) ||
    v = 0x2028 || v = 0x2029 || v = 0x205F || v = 0x3000

/-- Java `String.isBlank()`: the string is empty or consists only of whitespace. -/
def isBlank (s : String) : Bool :=
  s.data.all isJavaWhitespace

/-- The test `request.fromAccountId() == null || request.fromAccountId().isBlank()`
over the nullable-string embedding. -/
def optNullOrBlank : Option String → Bool
  | none => true
  | some s => isBlank s

/-- An ASCII decimal digit `'0'`–`'9'`.  (Java's `Integer.parseInt` delegates
to `Character.digit`, which also accepts the other Unicode decimal-digit
blocks; those exotic code points are not modelled.) -/
def isAsciiDigit (c : Char) : Bool :=
  48 ≤ c.toNat && c.toNat ≤ 57

/-- The digit-accumulation loop of `Integer.parseInt`: fails on the first
non-digit character. -/
def parseDigits (acc : Nat) : List Char → Option Nat
  | [] => some acc
  | c :: cs =>
    if isAsciiDigit c then parseDigits (acc * 10 + (c.toNat - 48)) cs else none

/-- Decimal digit accumulation: `some` of the value of a non-empty all-digit
character list, `none` otherwise. -/
def digitsToNat? : List Char → Option Nat
  | [] => none
  | cs => parseDigits 0 cs

/-- Java `Integer.valueOf(String)`: an optional leading `'-'` or `'+'` followed by at
least one decimal digit, with the value required to fit in the signed 32-bit
range; every other input throws `NumberFormatException`, modelled as
`.error ()`. -/
def javaIntegerValueOfChars : List Char → Except Unit Int
  | [] => .error ()
  | c :: rest =>
    if c = '-' then
      match digitsToNat? rest with
      | none => .error ()
      | some n => if n ≤ 2 ^ 31 then .ok (-(n : Int)) else .error ()
    else if c = '+' then
      match digitsToNat? rest with
      | none => .error ()
      | some n => if n ≤ 2 ^ 31 - 1 then .ok (n : Int) else .error ()
    else
      match digitsToNat? (c :: rest) with
      | none => .error ()
      | some n => if n ≤ 2 ^ 31 - 1 then .ok (n : Int) else .error ()

/-- Java `Integer.valueOf(String)` over the string's character sequence. -/
def javaIntegerValueOf (s : String) : Except Unit Int :=
  javaIntegerValueOfChars s.data

/-- Java `String.valueOf(int)`. -/
def javaStringValueOf (i : Int) : String :=
  toString i

/-- The service's error taxonomy: `IllegalArgumentException` → `invalidArg`,
`NoSuchElementException` → `notFound`, any other runtime failure →
`serverError`. -/
inductive PaymentError where
  | invalidArg (msg : String)
  | notFound (msg : String)
  | serverError (msg : String)
deriving DecidableEq, Repr

/-- The record `CreateTransactionRequest(String fromAccountId, String toAccountId,
BigDecimal amount)` — every field is nullable in the deserialized JSON body. -/
structure CreateTransactionRequest where
  fromAccountId : Option String
  toAccountId : Option String
  amount : Option ℚ
deriving DecidableEq, Repr

/-- JPA `AccountEntity` / one row of the `"Account"` table. -/
structure AccountEntity where
  id : Int
  balance : ℚ
deriving DecidableEq, Repr

/-- JPA `TransactionEntity` / one row of the `"Transaction"` table.  `createdAt`
is assigned by the database, not by the service (`insertable = false`). -/
structure TransactionEntity where
  id : Int
  fromAccountId : Int
  toAccountId : Int
  amount : ℚ
  createdAt : Option Nat
deriving DecidableEq, Repr

/-- The record `TransactionDTO(String id, String fromAccountId, String toAccountId,
BigDecimal amount, OffsetDateTime createdAt)`. -/
structure TransactionDTO where
  id : String
  fromAccountId : String
  toAccountId : String
  amount : ℚ
  createdAt : Option Nat
deriving DecidableEq, Repr

/-- The database state seen through the two JPA repositories: the account
rows, the transaction rows, and the `SERIAL` sequence for transaction ids. -/
structure Store where
  accounts : List AccountEntity
  transactions : List TransactionEntity
  nextId : Int
deriving DecidableEq, Repr

/-- Lookup `accountRepository.findById`. -/
def accountFindById (st : Store) (i : Int) : Option AccountEntity :=
  st.accounts.find? (fun a => a.id = i)

/-- Lookup `transactionRepository.findById`. -/
def transactionSelectById (st : Store) (i : Int) : Option TransactionEntity :=
  st.transactions.find? (fun t => t.id = i)

/-- Mapping `TransactionService.toDto`. -/
def toDto (e : TransactionEntity) : TransactionDTO :=
  { id := javaStringValueOf e.id
    fromAccountId := javaStringValueOf e.fromAccountId
    toAccountId := javaStringValueOf e.toAccountId
    amount := e.amount
    createdAt := e.createdAt }

/-- Method `TransactionService.parseIdentifier`: null/blank strings and
`NumberFormatException` both give null. -/
def parseIdentifier (raw : String) : Option Int :=
  if isBlank raw then
    none
  else
    match javaIntegerValueOf raw with
    | .ok n => some n
    | .error _ => none

/-- Method `TransactionService.parseAccountIdentifier`: `Integer.valueOf` with
`NumberFormatException` rethrown as `IllegalArgumentException`.  A null value
(the `none` case) also makes `Integer.valueOf` throw
`NumberFormatException`, hence the same error. -/
def parseAccountIdentifier (fieldName : String) (value : Option String) :
    Except PaymentError Int :=
  match value with
  | none => .error (.invalidArg (fieldName ++ " must be a numeric identifier"))
  | some s =>
    match javaIntegerValueOf s with
    | .ok n => .ok n
    | .error _ =>
      .error (.invalidArg (fieldName ++ " must be a numeric identifier"))

/-- Method `TransactionService.validateRequest`.  The Java `request == null` guard is
unreachable through the REST interface (Spring rejects a missing body before
the controller method runs), so the embedding takes the request itself as
always present; its fields remain nullable. -/
def validateRequest (request : CreateTransactionRequest) :
    Except PaymentError Unit :=
  if optNullOrBlank request.fromAccountId then
    .error (.invalidArg "fromAccountId is required")
  else if optNullOrBlank request.toAccountId then
    .error (.invalidArg "toAccountId is required")
  else if request.fromAccountId = request.toAccountId then
    .error (.invalidArg "fromAccountId and toAccountId must be different")
  else
    match request.amount with
    | none => .error (.invalidArg "amount must be greater than 0")
    | some amount =>
      if amount ≤ 0 then .error (.invalidArg "amount must be greater than 0")
      else .ok ()

/-- Persistence `transactionRepository.save` followed by `flush`: the SQL `INSERT` into
`"Transaction"`, enforcing the schema's `NOT NULL`, `ck_amount_positive`,
`ck_accounts_distinct`, `fk_tx_from_account` and `fk_tx_to_account`
constraints.  A constraint violation is a runtime exception the controller
does not catch, hence `serverError`. -/
def dbInsertTransaction (st : Store) (f t : Int) (amount : Option ℚ) :
    Except PaymentError (Store × TransactionEntity) :=
  match amount with
  | none => .error (.serverError "not-null constraint violated on amount")
  | some a =>
    if a ≤ 0 then .error (.serverError "check constraint ck_amount_positive violated")
    else if f = t then .error (.serverError "check constraint ck_accounts_distinct violated")
    else if (accountFindById st f).isNone then
      .error (.serverError "foreign key fk_tx_from_account violated")
    else if (accountFindById st t).isNone then
      .error (.serverError "foreign key fk_tx_to_account violated")
    else
      let row : TransactionEntity :=
        { id := st.nextId, fromAccountId := f, toAccountId := t,
          amount := a, createdAt := none }
      let st' : Store :=
        { st with transactions := st.transactions ++ [row], nextId := st.nextId + 1 }
      .ok (st', row)

/-- Method `TransactionService.findById`. -/
def findById (st : Store) (id : String) : Option TransactionDTO :=
  match parseIdentifier id with
  | none => none
  | some transactionId => (transactionSelectById st transactionId).map toDto

/-- Method `findById` as a state-passing computation over the store, making explicit
that the repository read leaves the store untouched. -/
def findByIdRun (id : String) (st : Store) : Option TransactionDTO × Store :=
  (findById st id, st)

/-- The body of `TransactionService.createTransaction`: validation, identifier
parsing, the two existence checks, the insert, and the re-read of the saved
row (which inside the open persistence context yields the saved entity). -/
def createTransaction (st : Store) (request : CreateTransactionRequest) :
    Except PaymentError (Store × TransactionDTO) :=
  match validateRequest request with
  | .error e => .error e
  | .ok () =>
    match parseAccountIdentifier "fromAccountId" request.fromAccountId with
    | .error e => .error e
    | .ok fromAccountId =>
      match parseAccountIdentifier "toAccountId" request.toAccountId with
      | .error e => .error e
      | .ok toAccountId =>
        match accountFindById st fromAccountId with
        | none => .error (.notFound "Source account not found")
        | some _ =>
          match accountFindById st toAccountId with
          | none => .error (.notFound "Destination account not found")
          | some _ =>
            match dbInsertTransaction st fromAccountId toAccountId
                request.amount with
            | .error e => .error e
            | .ok (st', saved) =>
              match transactionSelectById st' saved.id with
              | none => .error (.serverError "Transaction not found after save")
              | some e => .ok (st', toDto e)

/-- Method `createTransaction` with `@Transactional` semantics: any error rolls the
store back to its pre-call state. -/
def createTransactionRun (st : Store) (request : CreateTransactionRequest) :
    Except PaymentError TransactionDTO × Store :=
  match createTransaction st request with
  | .ok (st', dto) => (.ok dto, st')
  | .error e => (.error e, st)

/-- The JSON body `{success, message, transaction}` of
`TransactionResponse`. -/
structure TransactionResponse where
  success : Bool
  message : String
  transaction : Option TransactionDTO
deriving DecidableEq, Repr

/-- An HTTP response of the transaction controller. -/
structure HttpResponse where
  status : Nat
  body : TransactionResponse
deriving DecidableEq, Repr

/-- Endpoint `TransactionController.createTransaction`: 201 on success, 400 for
`IllegalArgumentException`, 404 for `NoSuchElementException`; anything else
escapes the controller and becomes the container's 500 response. -/
def controllerCreateTransaction (st : Store)
    (request : CreateTransactionRequest) : HttpResponse × Store :=
  match createTransactionRun st request with
  | (.ok dto, st') =>
    (⟨201, ⟨true, "Transaction created", some dto⟩⟩, st')
  | (.error (.invalidArg msg), st') => (⟨400, ⟨false, msg, none⟩⟩, st')
  | (.error (.notFound msg), st') => (⟨404, ⟨false, msg, none⟩⟩, st')
  | (.error (.serverError msg), st') => (⟨500, ⟨false, msg, none⟩⟩, st')

/-- The row invariant of the `"Transaction"` table: distinct endpoint
accounts and a strictly positive amount. -/
def txRowInvariant (r : TransactionEntity) : Prop :=
  r.fromAccountId ≠ r.toAccountId ∧ 0 < r.amount

/-- The test `amount == null || amount.compareTo(BigDecimal.ZERO) <= 0`. -/
def amountNullOrNonPos : Option ℚ → Bool
  | none => true
  | some a => if a ≤ 0 then true else false

/-- The field is present and `Integer.valueOf` accepts it. -/
def optParsesAsInt : Option String → Bool
  | none => false
  | some s =>
    match javaIntegerValueOf s with
    | .ok _ => true
    | .error _ => false

/-- Returns `true` exactly on the `.ok` constructor. -/
def exceptOk {ε α : Type} : Except ε α → Bool
  | .ok _ => true
  | .error _ => false

instance {ε α : Type} [DecidableEq ε] [DecidableEq α] : DecidableEq (Except ε α) :=
  fun x y =>
    match x, y with
    | .ok u, .ok v =>
      if h : u = v then .isTrue (by rw [h]) else .isFalse (by simp [h])
    | .error u, .error v =>
      if h : u = v then .isTrue (by rw [h]) else .isFalse (by simp [h])
    | .ok _, .error _ => .isFalse (by simp)
    | .error _, .ok _ => .isFalse (by simp)

theorem optNullOrBlank_eq_false_iff (o : Option String) :
    optNullOrBlank o = false ↔ ∃ s, o = some s ∧ isBlank s = false := by
  cases o with
  | none => simp [optNullOrBlank]
  | some s => simp [optNullOrBlank]

theorem amountNullOrNonPos_eq_false_iff (o : Option ℚ) :
    amountNullOrNonPos o = false ↔ ∃ a, o = some a ∧ 0 < a := by
  cases o with
  | none => simp [amountNullOrNonPos]
  | some a =>
    simp only [amountNullOrNonPos, Option.some.injEq]
    constructor
    · intro h
      refine ⟨a, rfl, ?_⟩
      by_cases hle : a ≤ 0
      · simp [hle] at h
      · exact lt_of_not_le hle
    · rintro ⟨b, rfl, hb⟩
      simp [not_le.mpr hb]

theorem optParsesAsInt_eq_true_iff (o : Option String) :
    optParsesAsInt o = true ↔ ∃ s n, o = some s ∧ javaIntegerValueOf s = .ok n := by
  cases o with
  | none => simp [optParsesAsInt]
  | some s =>
    cases h : javaIntegerValueOf s with
    | ok n =>
      simp only [optParsesAsInt, h, Option.some.injEq]
      constructor
      · intro _
        exact ⟨s, n, rfl, h⟩
      · intro _
        trivial
    | error e =>
      simp only [optParsesAsInt, h, Option.some.injEq]
      constructor
      · intro hh
        simp at hh
      · intro hex
        obtain ⟨t, m, rfl, hm2⟩ := hex
        rw [h] at hm2
        cases hm2

/-- A non-empty digit accumulation starts with a digit. -/
theorem digitsToNat?_head_digit {c : Char} {cs : List Char} {n : Nat}
    (h : digitsToNat? (c :: cs) = some n) : isAsciiDigit c = true := by
  by_cases hd : isAsciiDigit c
  · exact hd
  · simp [digitsToNat?, parseDigits, hd] at h

/-- ASCII digits are not Java whitespace. -/
theorem isAsciiDigit_not_whitespace {c : Char} (h : isAsciiDigit c = true) :
    isJavaWhitespace c = false := by
  have hb : 48 ≤ c.toNat ∧ c.toNat ≤ 57 := by
    simpa [isAsciiDigit] using h
  simp only [isJavaWhitespace, Bool.or_eq_false_iff, Bool.and_eq_false_iff,
    decide_eq_false_iff_not]
  omega

/-- Sign characters and digits are not Java whitespace, so any string accepted
by `Integer.valueOf` is not blank. -/
theorem javaIntegerValueOf_ok_not_blank {s : String} {n : Int}
    (h : javaIntegerValueOf s = .ok n) : isBlank s = false := by
  unfold javaIntegerValueOf at h
  unfold isBlank
  cases hd : s.data with
  | nil => rw [hd] at h; cases h
  | cons c rest =>
    rw [hd] at h
    simp only [javaIntegerValueOfChars] at h
    simp only [List.all_cons, Bool.and_eq_false_iff]
    by_cases hm : c = '-'
    · subst hm; left; decide
    · by_cases hp : c = '+'
      · subst hp; left; decide
      · rw [if_neg hm, if_neg hp] at h
        cases hdig : digitsToNat? (c :: rest) with
        | none => rw [hdig] at h; cases h
        | some m =>
          left
          exact isAsciiDigit_not_whitespace (digitsToNat?_head_digit hdig)

theorem validateRequest_blank_from {req : CreateTransactionRequest}
    (h : optNullOrBlank req.fromAccountId = true) :
    validateRequest req = .error (.invalidArg "fromAccountId is required") := by
  unfold validateRequest
  simp [h]

theorem validateRequest_blank_to {req : CreateTransactionRequest}
    (h1 : optNullOrBlank req.fromAccountId = false)
    (h2 : optNullOrBlank req.toAccountId = true) :
    validateRequest req = .error (.invalidArg "toAccountId is required") := by
  unfold validateRequest
  simp [h1, h2]

theorem validateRequest_same_ids {req : CreateTransactionRequest}
    (h1 : optNullOrBlank req.fromAccountId = false)
    (h2 : optNullOrBlank req.toAccountId = false)
    (h3 : req.fromAccountId = req.toAccountId) :
    validateRequest req =
      .error (.invalidArg "fromAccountId and toAccountId must be different") := by
  unfold validateRequest
  simp [h1, h2, h3]

theorem validateRequest_bad_amount {req : CreateTransactionRequest}
    (h1 : optNullOrBlank req.fromAccountId = false)
    (h2 : optNullOrBlank req.toAccountId = false)
    (h3 : req.fromAccountId ≠ req.toAccountId)
    (h4 : amountNullOrNonPos req.amount = true) :
    validateRequest req = .error (.invalidArg "amount must be greater than 0") := by
  unfold validateRequest
  cases ha : req.amount with
  | none => simp [h1, h2, h3, ha]
  | some a =>
    rw [ha] at h4
    by_cases hle : a ≤ 0
    · simp [h1, h2, h3, ha, hle]
    · simp [amountNullOrNonPos, hle] at h4

theorem validateRequest_ok_iff (req : CreateTransactionRequest) :
    validateRequest req = .ok () ↔
      optNullOrBlank req.fromAccountId = false ∧
      optNullOrBlank req.toAccountId = false ∧
      req.fromAccountId ≠ req.toAccountId ∧
      amountNullOrNonPos req.amount = false := by
  unfold validateRequest
  by_cases h1 : optNullOrBlank req.fromAccountId
  · simp [h1]
  · by_cases h2 : optNullOrBlank req.toAccountId
    · simp [h1, h2]
    · by_cases h3 : req.fromAccountId = req.toAccountId
      · simp [h1, h2, h3]
      · cases ha : req.amount with
        | none => simp [h1, h2, h3, ha, amountNullOrNonPos]
        | some a =>
          by_cases h4 : a ≤ 0
          · simp [h1, h2, h3, ha, h4, amountNullOrNonPos]
          · simp [h1, h2, h3, ha, h4, amountNullOrNonPos]

theorem parseAccountIdentifier_fail {o : Option String} (fieldName : String)
    (hp : optParsesAsInt o = false) :
    parseAccountIdentifier fieldName o =
      .error (.invalidArg (fieldName ++ " must be a numeric identifier")) := by
  cases o with
  | none => rfl
  | some s =>
    cases h : javaIntegerValueOf s with
    | ok n => simp [optParsesAsInt, h] at hp
    | error e => simp [parseAccountIdentifier, h]

theorem parseAccountIdentifier_ok {s : String} {n : Int} (fieldName : String)
    (hn : javaIntegerValueOf s = .ok n) :
    parseAccountIdentifier fieldName (some s) = .ok n := by
  simp [parseAccountIdentifier, hn]

/-- Inversion for a successful insert: the only change is one appended row,
and that row satisfies the table's constraints. -/
theorem dbInsertTransaction_ok_inv {st st' : Store} {f t : Int}
    {am : Option ℚ} {row : TransactionEntity}
    (h : dbInsertTransaction st f t am = .ok (st', row)) :
    st'.accounts = st.accounts ∧
    st'.transactions = st.transactions ++ [row] ∧
    st'.nextId = st.nextId + 1 ∧
    row.id = st.nextId ∧ row.fromAccountId = f ∧ row.toAccountId = t ∧
    am = some row.amount ∧ 0 < row.amount ∧ f ≠ t ∧ row.createdAt = none := by
  cases am with
  | none => exact Except.noConfusion h
  | some a =>
    simp only [dbInsertTransaction] at h
    by_cases hle : a ≤ 0
    · rw [if_pos hle] at h
      exact Except.noConfusion h
    · rw [if_neg hle] at h
      by_cases hft : f = t
      · rw [if_pos hft] at h
        exact Except.noConfusion h
      · rw [if_neg hft] at h
        by_cases haf : (accountFindById st f).isNone = true
        · rw [if_pos haf] at h
          exact Except.noConfusion h
        · rw [if_neg haf] at h
          by_cases hat : (accountFindById st t).isNone = true
          · rw [if_pos hat] at h
            exact Except.noConfusion h
          · rw [if_neg hat] at h
            have h' := Except.ok.inj h
            rw [Prod.mk.injEq] at h'
            obtain ⟨hst, hrow⟩ := h'
            subst hst
            subst hrow
            exact ⟨rfl, rfl, rfl, rfl, rfl, rfl, rfl, lt_of_not_le hle, hft, rfl⟩

/-- Every failing insert is a constraint violation, i.e. a server error. -/
theorem dbInsertTransaction_error_shape {st : Store} {f t : Int}
    {am : Option ℚ} {e : PaymentError}
    (h : dbInsertTransaction st f t am = .error e) : ∃ msg, e = .serverError msg := by
  cases am with
  | none => exact ⟨_, (Except.error.inj h).symm⟩
  | some a =>
    simp only [dbInsertTransaction] at h
    by_cases hle : a ≤ 0
    · rw [if_pos hle] at h
      exact ⟨_, (Except.error.inj h).symm⟩
    · rw [if_neg hle] at h
      by_cases hft : f = t
      · rw [if_pos hft] at h
        exact ⟨_, (Except.error.inj h).symm⟩
      · rw [if_neg hft] at h
        by_cases haf : (accountFindById st f).isNone = true
        · rw [if_pos haf] at h
          exact ⟨_, (Except.error.inj h).symm⟩
        · rw [if_neg haf] at h
          by_cases hat : (accountFindById st t).isNone = true
          · rw [if_pos hat] at h
            exact ⟨_, (Except.error.inj h).symm⟩
          · rw [if_neg hat] at h
            exact Except.noConfusion h

/-- A successful insert, given that all constraints hold. -/
theorem dbInsertTransaction_ok {st : Store} {f t : Int} {a : ℚ}
    (hpos : 0 < a) (hft : f ≠ t)
    (haf : (accountFindById st f).isNone = false)
    (hat : (accountFindById st t).isNone = false) :
    dbInsertTransaction st f t (some a) =
      .ok ({ st with
               transactions := st.transactions ++
                 [{ id := st.nextId, fromAccountId := f, toAccountId := t,
                    amount := a, createdAt := none }],
               nextId := st.nextId + 1 },
           { id := st.nextId, fromAccountId := f, toAccountId := t,
             amount := a, createdAt := none }) := by
  simp [dbInsertTransaction, not_le.mpr hpos, hft, haf, hat]

theorem createTransaction_error_of_validate {st : Store}
    {req : CreateTransactionRequest} {e : PaymentError}
    (h : validateRequest req = .error e) : createTransaction st req = .error e := by
  simp only [createTransaction, h]

/-- After validation and identifier parsing succeed, `createTransaction` is
the existence checks, the insert, and the re-read. -/
theorem createTransaction_after_parse {st : Store} {req : CreateTransactionRequest}
    {sf s2 : String} {f t : Int}
    (hv : validateRequest req = .ok ())
    (hfe : req.fromAccountId = some sf) (hf : javaIntegerValueOf sf = .ok f)
    (hte : req.toAccountId = some s2) (ht : javaIntegerValueOf s2 = .ok t) :
    createTransaction st req =
      match accountFindById st f with
      | none => .error (.notFound "Source account not found")
      | some _ =>
        match accountFindById st t with
        | none => .error (.notFound "Destination account not found")
        | some _ =>
          match dbInsertTransaction st f t req.amount with
          | .error e => .error e
          | .ok (st', saved) =>
            match transactionSelectById st' saved.id with
            | none => .error (.serverError "Transaction not found after save")
            | some e => .ok (st', toDto e) := by
  simp only [createTransaction, hv, hfe, hte,
    parseAccountIdentifier_ok "fromAccountId" hf,
    parseAccountIdentifier_ok "toAccountId" ht]

theorem createTransaction_notFound_from {st : Store}
    {req : CreateTransactionRequest} {sf s2 : String} {f t : Int}
    (hv : validateRequest req = .ok ())
    (hfe : req.fromAccountId = some sf) (hf : javaIntegerValueOf sf = .ok f)
    (hte : req.toAccountId = some s2) (ht : javaIntegerValueOf s2 = .ok t)
    (haf : accountFindById st f = none) :
    createTransaction st req = .error (.notFound "Source account not found") := by
  rw [createTransaction_after_parse hv hfe hf hte ht, haf]

theorem createTransaction_notFound_to {st : Store}
    {req : CreateTransactionRequest} {sf s2 : String} {f t : Int}
    {acc : AccountEntity}
    (hv : validateRequest req = .ok ())
    (hfe : req.fromAccountId = some sf) (hf : javaIntegerValueOf sf = .ok f)
    (hte : req.toAccountId = some s2) (ht : javaIntegerValueOf s2 = .ok t)
    (haf : accountFindById st f = some acc) (hat : accountFindById st t = none) :
    createTransaction st req =
      .error (.notFound "Destination account not found") := by
  rw [createTransaction_after_parse hv hfe hf hte ht, haf, hat]

/-- If validation and both parses succeed, no `IllegalArgumentException` can
be raised: the remaining outcomes are success, not-found, or a server
error. -/
theorem createTransaction_no_invalidArg {st : Store}
    {req : CreateTransactionRequest}
    (hv : validateRequest req = .ok ())
    (hpf : optParsesAsInt req.fromAccountId = true)
    (hpt : optParsesAsInt req.toAccountId = true) :
    ∀ msg, createTransaction st req ≠ .error (.invalidArg msg) := by
  intro msg hcontra
  rw [optParsesAsInt_eq_true_iff] at hpf hpt
  obtain ⟨sf, f, hfe, hf⟩ := hpf
  obtain ⟨s2, t, hte, ht⟩ := hpt
  rw [createTransaction_after_parse hv hfe hf hte ht] at hcontra
  cases haf : accountFindById st f with
  | none => simp [haf] at hcontra
  | some accf =>
    cases hat : accountFindById st t with
    | none => simp [haf, hat] at hcontra
    | some acct =>
      cases hins : dbInsertTransaction st f t req.amount with
      | error e =>
        obtain ⟨m, rfl⟩ := dbInsertTransaction_error_shape hins
        simp [haf, hat, hins] at hcontra
      | ok p =>
        obtain ⟨st', saved⟩ := p
        cases hsel : transactionSelectById st' saved.id with
        | none => simp [haf, hat, hins, hsel] at hcontra
        | some e => simp [haf, hat, hins, hsel] at hcontra

/-- Inversion of a successful `createTransaction` call: it is exactly one
insert followed by the re-read of the saved row. -/
theorem createTransaction_ok_inv {st st' : Store}
    {req : CreateTransactionRequest} {dto : TransactionDTO}
    (h : createTransaction st req = .ok (st', dto)) :
    ∃ f t row e, dbInsertTransaction st f t req.amount = .ok (st', row) ∧
      transactionSelectById st' row.id = some e ∧ dto = toDto e := by
  unfold createTransaction at h
  cases hv : validateRequest req with
  | error e => simp [hv] at h
  | ok u =>
    cases u
    cases hpf : parseAccountIdentifier "fromAccountId" req.fromAccountId with
    | error e => simp [hv, hpf] at h
    | ok f =>
      cases hpt : parseAccountIdentifier "toAccountId" req.toAccountId with
      | error e => simp [hv, hpf, hpt] at h
      | ok t =>
        cases haf : accountFindById st f with
        | none => simp [hv, hpf, hpt, haf] at h
        | some accf =>
          cases hat : accountFindById st t with
          | none => simp [hv, hpf, hpt, haf, hat] at h
          | some acct =>
            cases hins : dbInsertTransaction st f t req.amount with
            | error e => simp [hv, hpf, hpt, haf, hat, hins] at h
            | ok p =>
              obtain ⟨st'', row⟩ := p
              cases hsel : transactionSelectById st'' row.id with
              | none => simp [hv, hpf, hpt, haf, hat, hins, hsel] at h
              | some e =>
                simp only [hv, hpf, hpt, haf, hat, hins, hsel,
                  Except.ok.injEq, Prod.mk.injEq] at h
                obtain ⟨hst, hdto⟩ := h
                subst hst
                exact ⟨f, t, row, e, hins, hsel, hdto.symm⟩

/-- Finding a freshly appended row: if no earlier row carries its id, the
lookup returns exactly the appended row. -/
theorem find?_append_fresh {l : List TransactionEntity} {row : TransactionEntity}
    (hfresh : ∀ r ∈ l, r.id ≠ row.id) :
    (l ++ [row]).find? (fun r => r.id = row.id) = some row := by
  induction l with
  | nil =>
    simp only [List.nil_append]
    exact List.find?_cons_of_pos _ (by simp)
  | cons a l ih =>
    have ha : a.id ≠ row.id := hfresh a (List.mem_cons_self a l)
    rw [List.cons_append, List.find?_cons_of_neg _ (by simpa using ha)]
    exact ih fun r hr => hfresh r (List.mem_cons_of_mem a hr)

/-- C4: `createTransaction` never modifies any Account record — whether the
call succeeds or fails, the account table (balances and all other fields) is
unchanged. -/
theorem createTransaction_accounts_frame (st : Store)
    (req : CreateTransactionRequest) :
    (createTransactionRun st req).2.accounts = st.accounts := by
  unfold createTransactionRun
  cases hc : createTransaction st req with
  | error e => rfl
  | ok p =>
    obtain ⟨st', dto⟩ := p
    obtain ⟨f, t, row, e, hins, _, _⟩ := createTransaction_ok_inv hc
    exact (dbInsertTransaction_ok_inv hins).1

/-- C8: for every id string rejected by `Integer.valueOf` (blank strings
included), `findById` returns the empty result instead of raising a
format error. -/
theorem findById_unparseable_not_found (st : Store) (id : String)
    (h : isBlank id = true ∨ javaIntegerValueOf id = .error ()) :
    findById st id = none := by
  unfold findById parseIdentifier
  rcases h with hb | he
  · simp [hb]
  · by_cases hb2 : isBlank id
    · simp [hb2]
    · simp [hb2, he]

theorem findById_unparseable_not_found_witness :
    (isBlank "abc" = true ∨ javaIntegerValueOf "abc" = .error ()) ∧
      findById ⟨[], [], 1⟩ "abc" = none :=
  ⟨Or.inr (by decide),
   findById_unparseable_not_found ⟨[], [], 1⟩ "abc" (Or.inr (by decide))⟩

/-- C9: `findById` is idempotent — run twice with the same id on the same
store it returns the same result both times, and it leaves the store
unchanged. -/
theorem findById_idempotent (st : Store) (id : String) :
    (findByIdRun id ((findByIdRun id st).2)).1 = (findByIdRun id st).1 ∧
      (findByIdRun id ((findByIdRun id st).2)).2 = st :=
  ⟨rfl, rfl⟩

/-- C10: `findById` is total — for every input string and store it returns
either the empty result or the transaction whose id the string denotes; no
exception escapes. -/
theorem findById_total_lookup (st : Store) (id : String) :
    findById st id = none ∨
      ∃ r, r ∈ st.transactions ∧ parseIdentifier id = some r.id ∧
        findById st id = some (toDto r) := by
  cases hp : parseIdentifier id with
  | none => exact Or.inl (by simp [findById, hp])
  | some tid =>
    cases hf : transactionSelectById st tid with
    | none => exact Or.inl (by simp [findById, hp, hf])
    | some e =>
      right
      have hfind : st.transactions.find? (fun t => t.id = tid) = some e := by
        simpa [transactionSelectById] using hf
      have hid : e.id = tid := by
        have := List.find?_some hfind
        simpa using this
      refine ⟨e, List.mem_of_find?_eq_some hfind, ?_, by simp [findById, hp, hf]⟩
      subst hid
      rfl

/-- A two-account store used to instantiate the theorems on concrete data. -/
def demoStore : Store :=
  { accounts := [{ id := 1, balance := 100 }, { id := 2, balance := 100 }]
    transactions := []
    nextId := 1 }

/-- C3: a failing `createTransaction` call leaves the store exactly as it
was; a successful call appends exactly one Transaction row, leaves the
account table unchanged, and advances the id sequence by one. -/
theorem createTransaction_store_effect (st : Store)
    (req : CreateTransactionRequest) :
    (exceptOk (createTransactionRun st req).1 = false →
      (createTransactionRun st req).2 = st) ∧
    (exceptOk (createTransactionRun st req).1 = true →
      ∃ row,
        (createTransactionRun st req).2.transactions = st.transactions ++ [row] ∧
        (createTransactionRun st req).2.accounts = st.accounts ∧
        (createTransactionRun st req).2.nextId = st.nextId + 1) := by
  unfold createTransactionRun
  cases hc : createTransaction st req with
  | error e =>
    constructor
    · intro _
      rfl
    · intro hcontra
      simp [exceptOk] at hcontra
  | ok p =>
    obtain ⟨st', dto⟩ := p
    obtain ⟨f, t, row, e, hins, _, _⟩ := createTransaction_ok_inv hc
    obtain ⟨hacc, htx, hnext, _, _, _, _, _, _, _⟩ := dbInsertTransaction_ok_inv hins
    constructor
    · intro hcontra
      simp [exceptOk] at hcontra
    · intro _
      exact ⟨row, htx, hacc, hnext⟩

theorem createTransaction_store_effect_witness :
    ((createTransactionRun demoStore ⟨some "1", some "1", some 10⟩).2 =
        demoStore) ∧
    (∃ row,
      (createTransactionRun demoStore ⟨some "1", some "2", some 10⟩).2.transactions =
        demoStore.transactions ++ [row] ∧
      (createTransactionRun demoStore ⟨some "1", some "2", some 10⟩).2.accounts =
        demoStore.accounts ∧
      (createTransactionRun demoStore ⟨some "1", some "2", some 10⟩).2.nextId =
        demoStore.nextId + 1) :=
  ⟨(createTransaction_store_effect demoStore ⟨some "1", some "1", some 10⟩).1
      (by decide),
   (createTransaction_store_effect demoStore ⟨some "1", some "2", some 10⟩).2
      (by decide)⟩

/-- C1: every Transaction row ever persisted has distinct endpoint account
ids and a strictly positive amount (the inserted row passes the table's
check constraints), and the service only appends rows — neither
`createTransaction` nor `findById` updates or deletes a persisted
transaction. -/
theorem createTransaction_invariant_preserved (st : Store)
    (req : CreateTransactionRequest)
    (h : ∀ r ∈ st.transactions, txRowInvariant r) :
    (∀ r ∈ (createTransactionRun st req).2.transactions, txRowInvariant r) ∧
    ((createTransactionRun st req).2.transactions = st.transactions ∨
      ∃ row, (createTransactionRun st req).2.transactions =
        st.transactions ++ [row]) ∧
    (∀ id, (findByIdRun id st).2 = st) := by
  unfold createTransactionRun
  cases hc : createTransaction st req with
  | error e => exact ⟨h, Or.inl rfl, fun _ => rfl⟩
  | ok p =>
    obtain ⟨st', dto⟩ := p
    obtain ⟨f, t, row, e, hins, _, _⟩ := createTransaction_ok_inv hc
    obtain ⟨hacc, htx, hnext, hid, hfrom, hto, ham, hpos, hft, hcr⟩ :=
      dbInsertTransaction_ok_inv hins
    refine ⟨?_, Or.inr ⟨row, htx⟩, fun _ => rfl⟩
    intro r hr
    rw [htx] at hr
    rcases List.mem_append.mp hr with hin | hnew
    · exact h r hin
    · have hrr : r = row := by simpa using hnew
      subst hrr
      refine ⟨?_, hpos⟩
      rw [hfrom, hto]
      exact hft

theorem createTransaction_invariant_preserved_witness :
    (∀ r ∈ (createTransactionRun demoStore
        ⟨some "1", some "2", some 10⟩).2.transactions, txRowInvariant r) ∧
    ((createTransactionRun demoStore
        ⟨some "1", some "2", some 10⟩).2.transactions = demoStore.transactions ∨
      ∃ row, (createTransactionRun demoStore
        ⟨some "1", some "2", some 10⟩).2.transactions =
          demoStore.transactions ++ [row]) ∧
    (∀ id, (findByIdRun id demoStore).2 = demoStore) :=
  createTransaction_invariant_preserved demoStore ⟨some "1", some "2", some 10⟩
    (by simp [demoStore])

/-- C7: whenever fromAccountId equals toAccountId (including both missing or
both blank), the controller answers HTTP 400 with success:false, whatever
the amount — even an amount that is itself invalid. -/
theorem createTransaction_same_ids_400 (st : Store)
    (req : CreateTransactionRequest)
    (h : req.fromAccountId = req.toAccountId) :
    ∃ msg, controllerCreateTransaction st req = (⟨400, ⟨false, msg, none⟩⟩, st) := by
  have herr : ∃ msg, createTransaction st req = .error (.invalidArg msg) := by
    by_cases h1 : optNullOrBlank req.fromAccountId
    · exact ⟨_, createTransaction_error_of_validate (validateRequest_blank_from h1)⟩
    · have h1' : optNullOrBlank req.fromAccountId = false := by
        simpa using h1
      have h2 : optNullOrBlank req.toAccountId = false := by
        rw [← h]
        exact h1'
      exact ⟨_, createTransaction_error_of_validate
        (validateRequest_same_ids h1' h2 h)⟩
  obtain ⟨msg, hmsg⟩ := herr
  refine ⟨msg, ?_⟩
  simp only [controllerCreateTransaction, createTransactionRun, hmsg]

theorem createTransaction_same_ids_400_witness :
    ∃ msg, controllerCreateTransaction demoStore ⟨some "1", some "1", some (-5)⟩ =
      (⟨400, ⟨false, msg, none⟩⟩, demoStore) :=
  createTransaction_same_ids_400 demoStore ⟨some "1", some "1", some (-5)⟩ rfl

theorem createTransaction_parse_from_fail {st : Store}
    {req : CreateTransactionRequest}
    (hv : validateRequest req = .ok ())
    (hp : optParsesAsInt req.fromAccountId = false) :
    createTransaction st req =
      .error (.invalidArg "fromAccountId must be a numeric identifier") := by
  simp only [createTransaction, hv, parseAccountIdentifier_fail "fromAccountId" hp]
  rfl

theorem createTransaction_parse_to_fail {st : Store}
    {req : CreateTransactionRequest}
    (hv : validateRequest req = .ok ())
    (hpf : optParsesAsInt req.fromAccountId = true)
    (hpt : optParsesAsInt req.toAccountId = false) :
    createTransaction st req =
      .error (.invalidArg "toAccountId must be a numeric identifier") := by
  rw [optParsesAsInt_eq_true_iff] at hpf
  obtain ⟨sf, f, hfe, hf⟩ := hpf
  simp only [createTransaction, hv, hfe,
    parseAccountIdentifier_ok "fromAccountId" hf,
    parseAccountIdentifier_fail "toAccountId" hpt]
  rfl

/-- C2: the five validation checks run in the order of the source, each with
its own distinct error message, and `createTransaction` raises an
invalid-argument error exactly when one of the five conditions holds. -/
theorem createTransaction_validation_order_iff (st : Store)
    (req : CreateTransactionRequest) :
    ((∃ msg, createTransaction st req = .error (.invalidArg msg)) ↔
      (optNullOrBlank req.fromAccountId = true ∨
       optNullOrBlank req.toAccountId = true ∨
       req.fromAccountId = req.toAccountId ∨
       amountNullOrNonPos req.amount = true ∨
       optParsesAsInt req.fromAccountId = false ∨
       optParsesAsInt req.toAccountId = false)) ∧
    (optNullOrBlank req.fromAccountId = true →
      createTransaction st req =
        .error (.invalidArg "fromAccountId is required")) ∧
    (optNullOrBlank req.fromAccountId = false →
     optNullOrBlank req.toAccountId = true →
      createTransaction st req =
        .error (.invalidArg "toAccountId is required")) ∧
    (optNullOrBlank req.fromAccountId = false →
     optNullOrBlank req.toAccountId = false →
     req.fromAccountId = req.toAccountId →
      createTransaction st req =
        .error (.invalidArg "fromAccountId and toAccountId must be different")) ∧
    (optNullOrBlank req.fromAccountId = false →
     optNullOrBlank req.toAccountId = false →
     req.fromAccountId ≠ req.toAccountId →
     amountNullOrNonPos req.amount = true →
      createTransaction st req =
        .error (.invalidArg "amount must be greater than 0")) ∧
    (optNullOrBlank req.fromAccountId = false →
     optNullOrBlank req.toAccountId = false →
     req.fromAccountId ≠ req.toAccountId →
     amountNullOrNonPos req.amount = false →
     optParsesAsInt req.fromAccountId = false →
      createTransaction st req =
        .error (.invalidArg "fromAccountId must be a numeric identifier")) ∧
    (optNullOrBlank req.fromAccountId = false →
     optNullOrBlank req.toAccountId = false →
     req.fromAccountId ≠ req.toAccountId →
     amountNullOrNonPos req.amount = false →
     optParsesAsInt req.fromAccountId = true →
     optParsesAsInt req.toAccountId = false →
      createTransaction st req =
        .error (.invalidArg "toAccountId must be a numeric identifier")) := by
  have hc1 : optNullOrBlank req.fromAccountId = true →
      createTransaction st req =
        .error (.invalidArg "fromAccountId is required") :=
    fun h1 => createTransaction_error_of_validate (validateRequest_blank_from h1)
  have hc2 : optNullOrBlank req.fromAccountId = false →
      optNullOrBlank req.toAccountId = true →
      createTransaction st req = .error (.invalidArg "toAccountId is required") :=
    fun h1 h2 =>
      createTransaction_error_of_validate (validateRequest_blank_to h1 h2)
  have hc3 : optNullOrBlank req.fromAccountId = false →
      optNullOrBlank req.toAccountId = false →
      req.fromAccountId = req.toAccountId →
      createTransaction st req =
        .error (.invalidArg "fromAccountId and toAccountId must be different") :=
    fun h1 h2 h3 =>
      createTransaction_error_of_validate (validateRequest_same_ids h1 h2 h3)
  have hc4 : optNullOrBlank req.fromAccountId = false →
      optNullOrBlank req.toAccountId = false →
      req.fromAccountId ≠ req.toAccountId →
      amountNullOrNonPos req.amount = true →
      createTransaction st req =
        .error (.invalidArg "amount must be greater than 0") :=
    fun h1 h2 h3 h4 =>
      createTransaction_error_of_validate (validateRequest_bad_amount h1 h2 h3 h4)
  have hc5 : optNullOrBlank req.fromAccountId = false →
      optNullOrBlank req.toAccountId = false →
      req.fromAccountId ≠ req.toAccountId →
      amountNullOrNonPos req.amount = false →
      optParsesAsInt req.fromAccountId = false →
      createTransaction st req =
        .error (.invalidArg "fromAccountId must be a numeric identifier") :=
    fun h1 h2 h3 h4 h5 =>
      createTransaction_parse_from_fail
        ((validateRequest_ok_iff req).mpr ⟨h1, h2, h3, h4⟩) h5
  have hc6 : optNullOrBlank req.fromAccountId = false →
      optNullOrBlank req.toAccountId = false →
      req.fromAccountId ≠ req.toAccountId →
      amountNullOrNonPos req.amount = false →
      optParsesAsInt req.fromAccountId = true →
      optParsesAsInt req.toAccountId = false →
      createTransaction st req =
        .error (.invalidArg "toAccountId must be a numeric identifier") :=
    fun h1 h2 h3 h4 h5 h6 =>
      createTransaction_parse_to_fail
        ((validateRequest_ok_iff req).mpr ⟨h1, h2, h3, h4⟩) h5 h6
  refine ⟨?_, hc1, hc2, hc3, hc4, hc5, hc6⟩
  constructor
  · rintro ⟨msg, hmsg⟩
    by_contra hnone
    push_neg at hnone
    obtain ⟨n1, n2, n3, n4, n5, n6⟩ := hnone
    have b1 : optNullOrBlank req.fromAccountId = false := by simpa using n1
    have b2 : optNullOrBlank req.toAccountId = false := by simpa using n2
    have b4 : amountNullOrNonPos req.amount = false := by simpa using n4
    have b5 : optParsesAsInt req.fromAccountId = true := by simpa using n5
    have b6 : optParsesAsInt req.toAccountId = true := by simpa using n6
    exact createTransaction_no_invalidArg
      ((validateRequest_ok_iff req).mpr ⟨b1, b2, n3, b4⟩) b5 b6 msg hmsg
  · intro hdisj
    by_cases b1 : optNullOrBlank req.fromAccountId
    · exact ⟨_, hc1 b1⟩
    · have b1' : optNullOrBlank req.fromAccountId = false := by simpa using b1
      by_cases b2 : optNullOrBlank req.toAccountId
      · exact ⟨_, hc2 b1' b2⟩
      · have b2' : optNullOrBlank req.toAccountId = false := by simpa using b2
        by_cases b3 : req.fromAccountId = req.toAccountId
        · exact ⟨_, hc3 b1' b2' b3⟩
        · by_cases b4 : amountNullOrNonPos req.amount
          · exact ⟨_, hc4 b1' b2' b3 b4⟩
          · have b4' : amountNullOrNonPos req.amount = false := by simpa using b4
            by_cases b5 : optParsesAsInt req.fromAccountId
            · by_cases b6 : optParsesAsInt req.toAccountId
              · exfalso
                rcases hdisj with h | h | h | h | h | h
                · rw [h] at b1'
                  cases b1'
                · rw [h] at b2'
                  cases b2'
                · exact b3 h
                · rw [h] at b4'
                  cases b4'
                · rw [b5] at h
                  cases h
                · rw [b6] at h
                  cases h
              · have b6' : optParsesAsInt req.toAccountId = false := by
                  simpa using b6
                exact ⟨_, hc6 b1' b2' b3 b4' b5 b6'⟩
            · have b5' : optParsesAsInt req.fromAccountId = false := by
                simpa using b5
              exact ⟨_, hc5 b1' b2' b3 b4' b5'⟩

theorem createTransaction_validation_order_iff_witness :
    createTransaction demoStore ⟨none, some "2", some 10⟩ =
      .error (.invalidArg "fromAccountId is required") :=
  (createTransaction_validation_order_iff demoStore
    ⟨none, some "2", some 10⟩).2.1 rfl

theorem controller_maps_notFound {st : Store} {req : CreateTransactionRequest}
    {msg : String} (h : createTransaction st req = .error (.notFound msg)) :
    controllerCreateTransaction st req = (⟨404, ⟨false, msg, none⟩⟩, st) := by
  simp only [controllerCreateTransaction, createTransactionRun, h]

/-- C6: a request that passes input validation but references a missing
account fails with a not-found error naming the missing side — the source
account is checked first — and the controller maps that error to HTTP 404
with success:false. -/
theorem createTransaction_missing_account_404 (st : Store)
    (req : CreateTransactionRequest) (sf s2 : String) (f t : Int) (a : ℚ)
    (hfe : req.fromAccountId = some sf) (hf : javaIntegerValueOf sf = .ok f)
    (hte : req.toAccountId = some s2) (ht : javaIntegerValueOf s2 = .ok t)
    (hne : sf ≠ s2) (ha : req.amount = some a) (hpos : 0 < a) :
    (accountFindById st f = none →
      controllerCreateTransaction st req =
        (⟨404, ⟨false, "Source account not found", none⟩⟩, st)) ∧
    (∀ acc, accountFindById st f = some acc → accountFindById st t = none →
      controllerCreateTransaction st req =
        (⟨404, ⟨false, "Destination account not found", none⟩⟩, st)) := by
  have hnb1 : optNullOrBlank req.fromAccountId = false := by
    rw [hfe]
    exact javaIntegerValueOf_ok_not_blank hf
  have hnb2 : optNullOrBlank req.toAccountId = false := by
    rw [hte]
    exact javaIntegerValueOf_ok_not_blank ht
  have hneq : req.fromAccountId ≠ req.toAccountId := by
    rw [hfe, hte]
    simp [hne]
  have hamt : amountNullOrNonPos req.amount = false := by
    rw [ha]
    simp [amountNullOrNonPos, not_le.mpr hpos]
  have hv : validateRequest req = .ok () :=
    (validateRequest_ok_iff req).mpr ⟨hnb1, hnb2, hneq, hamt⟩
  constructor
  · intro haf
    exact controller_maps_notFound
      (createTransaction_notFound_from hv hfe hf hte ht haf)
  · intro acc haf hat
    exact controller_maps_notFound
      (createTransaction_notFound_to hv hfe hf hte ht haf hat)

theorem createTransaction_missing_account_404_witness :
    controllerCreateTransaction demoStore ⟨some "3", some "1", some 10⟩ =
      (⟨404, ⟨false, "Source account not found", none⟩⟩, demoStore) ∧
    controllerCreateTransaction demoStore ⟨some "1", some "3", some 10⟩ =
      (⟨404, ⟨false, "Destination account not found", none⟩⟩, demoStore) :=
  ⟨(createTransaction_missing_account_404 demoStore ⟨some "3", some "1", some 10⟩
      "3" "1" 3 1 10 rfl (by decide) rfl (by decide) (by decide) rfl
      (by decide)).1 (by decide),
   (createTransaction_missing_account_404 demoStore ⟨some "1", some "3", some 10⟩
      "1" "3" 1 3 10 rfl (by decide) rfl (by decide) (by decide) rfl
      (by decide)).2 ⟨1, 100⟩ (by decide) (by decide)⟩

/-- C5 (counterexample): with accounts 1 and 2 present, the request
fromAccountId "01", toAccountId "2", amount 10 satisfies the claim's
hypotheses — both referenced accounts exist, the amount is positive and the
identifiers differ — yet the returned transaction's fromAccountId field is
"1", not the request's input string "01": the response carries the
canonical decimal rendering of the parsed identifier, not the input
value. -/
theorem create_echo_cex :
    ∃ dto,
      (createTransactionRun demoStore ⟨some "01", some "2", some 10⟩).1 =
        .ok dto ∧
      dto.fromAccountId ≠ "01" ∧ dto.toAccountId = "2" ∧ dto.amount = 10 :=
  ⟨⟨"1", "1", "2", 10, none⟩, by decide, by decide, by decide, by decide⟩

/-- C5 (amended): for every request whose two identifiers parse to distinct
integers naming existing accounts and whose amount is positive,
`createTransaction` succeeds, appends exactly the one new row, and returns a
transaction whose amount is exactly the request's amount, whose account
fields are the canonical decimal renderings of the parsed identifiers (the
verbatim inputs whenever those are canonical), and whose id is the freshly
generated identifier, distinct from the id of every previously stored
row. -/
theorem createTransaction_success_fields (st : Store)
    (req : CreateTransactionRequest) (sf s2 : String) (f t : Int) (a : ℚ)
    (hwf : ∀ r ∈ st.transactions, r.id < st.nextId)
    (hfe : req.fromAccountId = some sf) (hf : javaIntegerValueOf sf = .ok f)
    (hte : req.toAccountId = some s2) (ht : javaIntegerValueOf s2 = .ok t)
    (hft : f ≠ t) (ha : req.amount = some a) (hpos : 0 < a)
    (haf : (accountFindById st f).isNone = false)
    (hat : (accountFindById st t).isNone = false) :
    ∃ row,
      createTransactionRun st req =
        (.ok (toDto row),
         { st with transactions := st.transactions ++ [row],
                   nextId := st.nextId + 1 }) ∧
      row.fromAccountId = f ∧ row.toAccountId = t ∧ row.amount = a ∧
      row.id = st.nextId ∧
      (toDto row).fromAccountId = javaStringValueOf f ∧
      (toDto row).toAccountId = javaStringValueOf t ∧
      (toDto row).amount = a ∧
      (∀ r ∈ st.transactions, r.id ≠ row.id) := by
  have hnb1 : optNullOrBlank req.fromAccountId = false := by
    rw [hfe]
    exact javaIntegerValueOf_ok_not_blank hf
  have hnb2 : optNullOrBlank req.toAccountId = false := by
    rw [hte]
    exact javaIntegerValueOf_ok_not_blank ht
  have hneq : req.fromAccountId ≠ req.toAccountId := by
    rw [hfe, hte]
    intro hcon
    apply hft
    have hss : sf = s2 := by simpa using hcon
    rw [hss] at hf
    rw [hf] at ht
    exact (Except.ok.inj ht)
  have hamt : amountNullOrNonPos req.amount = false := by
    rw [ha]
    simp [amountNullOrNonPos, not_le.mpr hpos]
  have hv : validateRequest req = .ok () :=
    (validateRequest_ok_iff req).mpr ⟨hnb1, hnb2, hneq, hamt⟩
  set row : TransactionEntity :=
    { id := st.nextId, fromAccountId := f, toAccountId := t,
      amount := a, createdAt := none } with hrow
  set st' : Store :=
    { st with transactions := st.transactions ++ [row],
              nextId := st.nextId + 1 } with hst'
  have hfresh : ∀ r ∈ st.transactions, r.id ≠ row.id :=
    fun r hr => ne_of_lt (hwf r hr)
  have hsel : transactionSelectById st' row.id = some row := by
    show (st.transactions ++ [row]).find? (fun r => r.id = row.id) = some row
    exact find?_append_fresh hfresh
  have hins : dbInsertTransaction st f t (some a) = .ok (st', row) :=
    dbInsertTransaction_ok hpos hft haf hat
  have hcreate := @createTransaction_after_parse st req sf s2 f t hv hfe hf hte ht
  rw [ha] at hcreate
  cases hxf : accountFindById st f with
  | none =>
    rw [hxf] at haf
    cases haf
  | some accf =>
    cases hxt : accountFindById st t with
    | none =>
      rw [hxt] at hat
      cases hat
    | some acct =>
      rw [hxf, hxt, hins] at hcreate
      simp only [hsel] at hcreate
      refine ⟨row, ?_, rfl, rfl, rfl, rfl, rfl, rfl, rfl, hfresh⟩
      simp only [createTransactionRun, hcreate]

theorem createTransaction_success_fields_witness :
    ∃ row,
      createTransactionRun demoStore ⟨some "1", some "2", some 10⟩ =
        (.ok (toDto row),
         { demoStore with
             transactions := demoStore.transactions ++ [row],
             nextId := demoStore.nextId + 1 }) ∧
      row.fromAccountId = 1 ∧ row.toAccountId = 2 ∧ row.amount = 10 ∧
      row.id = demoStore.nextId ∧
      (toDto row).fromAccountId = javaStringValueOf 1 ∧
      (toDto row).toAccountId = javaStringValueOf 2 ∧
      (toDto row).amount = 10 ∧
      (∀ r ∈ demoStore.transactions, r.id ≠ row.id) :=
  createTransaction_success_fields demoStore ⟨some "1", some "2", some 10⟩
    "1" "2" 1 2 10 (by simp [demoStore]) rfl (by decide) rfl (by decide)
    (by decide) rfl (by decide) (by decide) (by decide)

end Payment
